import Mathlib

/-!
Verification of the doodle rendering harness.

This file gives a shallow embedding, in Lean 4, of the GPU-resource
ownership layer (`src/doodle/gl.cpp`, `src/doodle/gl.h`) and the
rendering-description layer (`src/doodle/main.cpp`) of the repository,
and proves the specified properties about it.

Driver-level OpenGL calls are modelled explicitly: resource
creation/deletion acts on a `GLDriver` state, and the remaining calls
issued by the program are recorded in traces of `GLCall` values.
-/

namespace Doodle

/-! ## OpenGL constants used by the source -/

def GL_TRUE : Nat := 1

def GL_FRAGMENT_SHADER : Nat := 0x8B30

def GL_VERTEX_SHADER : Nat := 0x8B31

def GL_FLOAT : Nat := 0x1406

def GL_DOUBLE : Nat := 0x140A

def GL_UNSIGNED_BYTE : Nat := 0x1401

def GL_UNSIGNED_SHORT : Nat := 0x1403

def GL_UNSIGNED_INT : Nat := 0x1405

def GL_TRIANGLES : Nat := 0x0004

def GL_STATIC_DRAW : Nat := 0x88E4

def GL_DYNAMIC_DRAW : Nat := 0x88E8

/-! ## Occurrence counting

A small counting function on lists, used to count how often a handle
has been released and how many live wrappers own it. -/

def cnt {α : Type} [DecidableEq α] (x : α) : List α → Nat
  | [] => 0
  | y :: t => (if y = x then 1 else 0) + cnt x t

theorem cnt_nil {α : Type} [DecidableEq α] (x : α) : cnt x ([] : List α) = 0 := rfl

theorem cnt_cons {α : Type} [DecidableEq α] (x y : α) (t : List α) :
    cnt x (y :: t) = (if y = x then 1 else 0) + cnt x t := rfl

theorem cnt_append {α : Type} [DecidableEq α] (x : α) (l₁ l₂ : List α) :
    cnt x (l₁ ++ l₂) = cnt x l₁ + cnt x l₂ := by
  induction l₁ with
  | nil => simp [cnt]
  | cons y t ih => simp [cnt, ih, Nat.add_assoc]

theorem cnt_eq_zero_of_not_mem {α : Type} [DecidableEq α] {x : α} {l : List α}
    (h : x ∉ l) : cnt x l = 0 := by
  induction l with
  | nil => rfl
  | cons y t ih =>
    simp only [List.mem_cons, not_or] at h
    have hne : ¬y = x := fun he => h.1 he.symm
    simp [cnt, ih h.2, hne]

theorem cnt_pos_of_mem {α : Type} [DecidableEq α] {x : α} {l : List α}
    (h : x ∈ l) : 1 ≤ cnt x l := by
  induction l with
  | nil => cases h
  | cons y t ih =>
    rcases List.mem_cons.mp h with h | h
    · simp [cnt, h]
    · have := ih h
      simp only [cnt]
      omega

theorem cnt_set {α : Type} [DecidableEq α] :
    ∀ (l : List α) (i : Nat) (w v x : α), l[i]? = some w →
      cnt x (l.set i v) + (if w = x then 1 else 0) =
        cnt x l + (if v = x then 1 else 0)
  | [], i, w, v, x, h => by simp at h
  | y :: t, 0, w, v, x, h => by
    rw [List.getElem?_cons_zero] at h
    cases h
    simp [cnt, List.set]
    omega
  | y :: t, i + 1, w, v, x, h => by
    rw [List.getElem?_cons_succ] at h
    have ih := cnt_set t i w v x h
    simp only [List.set, cnt]
    omega

/-! ## Driver state for resource handles

Models the driver side of glCreateShader / glCreateProgram /
glCreateBuffers / glCreateVertexArrays and the corresponding delete
calls. Handles are issued fresh and nonzero; deleting handle 0 is
silently ignored by the driver (OpenGL 4.6, chapters 7 and 8). -/

structure GLDriver where
  nextHandle : Nat
  released : List Nat
  deriving Repr, DecidableEq

def GLDriver.init : GLDriver := { nextHandle := 1, released := [] }

/-- glDeleteShader / glDeleteProgram / glDeleteBuffers / glDeleteVertexArrays:
a zero handle is silently ignored, any other handle is released. -/
def glDelete (d : GLDriver) (h : Nat) : GLDriver :=
  if h = 0 then d else { d with released := h :: d.released }

/-- glCreateShader / glCreateProgram / glCreateBuffers / glCreateVertexArrays:
returns the new driver state and a fresh nonzero handle. -/
def glCreate (d : GLDriver) : GLDriver × Nat :=
  ({ d with nextHandle := d.nextHandle + 1 }, d.nextHandle)

/-! ## The handle-wrapper state machine

gl::Shader, gl::Program, gl::Buffer and gl::VAO (gl.cpp) are four
textually identical move-only wrappers around one driver handle each:

- constructor: acquires a fresh handle from the driver;
- move constructor: `handle(other.handle)` then `other.handle = 0`;
- move assignment: `glDelete*(handle); handle = other.handle; other.handle = 0;`
  (well-defined under self-assignment: the aliased store of 0 wins);
- destructor: `glDelete*(handle)` unconditionally.

The machine below models an arbitrary interleaving of these four
operations over any number of wrapper objects. A wrapper slot is
`some h` while the object is alive holding handle `h` (`h = 0` is the
moved-from sentinel) and `none` once destroyed. Operations on
destroyed or out-of-range slots (undefined behaviour in C++) are
modelled as no-ops. -/

inductive Op where
  | construct : Op
  | moveConstruct (src : Nat) : Op
  | moveAssign (dst src : Nat) : Op
  | destroy (i : Nat) : Op
  deriving Repr, DecidableEq

structure WrapperState where
  gl : GLDriver
  objs : List (Option Nat)
  deriving Repr, DecidableEq

def initState : WrapperState := { gl := GLDriver.init, objs := [] }

def step (s : WrapperState) : Op → WrapperState
  | .construct =>
    let (d, h) := glCreate s.gl
    { gl := d, objs := s.objs ++ [some h] }
  | .moveConstruct src =>
    match s.objs[src]? with
    | some (some h) => { s with objs := s.objs.set src (some 0) ++ [some h] }
    | _ => s
  | .moveAssign dst src =>
    match s.objs[dst]?, s.objs[src]? with
    | some (some hd), some (some hs) =>
      { gl := glDelete s.gl hd,
        objs := (s.objs.set dst (some hs)).set src (some 0) }
    | _, _ => s
  | .destroy i =>
    match s.objs[i]? with
    | some (some h) => { gl := glDelete s.gl h, objs := s.objs.set i none }
    | _ => s

def run (ops : List Op) : WrapperState := ops.foldl step initState

/-- Destroy the wrappers at slots `n - 1, ..., 0` (C++ destroys remaining
objects at end of scope; already-destroyed slots are no-ops). -/
def destroyFrom (s : WrapperState) : Nat → WrapperState
  | 0 => s
  | n + 1 => step (destroyFrom s n) (.destroy n)

def destroyAll (s : WrapperState) : WrapperState := destroyFrom s s.objs.length

/-- How many live wrappers currently hold handle `h`. -/
def owners (objs : List (Option Nat)) (h : Nat) : Nat := cnt (some h) objs

/-- The reachable-state invariant: every handle the driver has issued is
either owned by exactly one live wrapper and not yet released, or owned
by nobody and released exactly once. -/
structure Inv (s : WrapperState) : Prop where
  next_pos : 1 ≤ s.gl.nextHandle
  balance : ∀ h, 1 ≤ h → h < s.gl.nextHandle →
    owners s.objs h + cnt h s.gl.released = 1
  released_created : ∀ h ∈ s.gl.released, 1 ≤ h ∧ h < s.gl.nextHandle
  owned_created : ∀ h, h ≠ 0 → some h ∈ s.objs → h < s.gl.nextHandle

/-! ## Vertex-format, shader and mesh data model (main.cpp)

gl::Buffer and gl::VAO members of the structs below are represented by
the raw driver handle the wrapper owns; ownership itself is covered by
the wrapper machine above. -/

inductive AttribType where
  | f32
  | f64
  deriving Repr, DecidableEq

def AttribType.toGLenum : AttribType → Nat
  | .f32 => GL_FLOAT
  | .f64 => GL_DOUBLE

inductive IndexType where
  | u8
  | u16
  | u32
  deriving Repr, DecidableEq

def IndexType.toGLenum : IndexType → Nat
  | .u8 => GL_UNSIGNED_BYTE
  | .u16 => GL_UNSIGNED_SHORT
  | .u32 => GL_UNSIGNED_INT

inductive Primitive where
  | triangles
  deriving Repr, DecidableEq

def Primitive.toGLenum : Primitive → Nat
  | .triangles => GL_TRIANGLES

/-- enum class AttribLocation: the only declared input slot. -/
def AttribLocation_position : Nat := 0

structure VertexAttribProps where
  location : Nat
  type : AttribType
  size : Nat
  deriving Repr, DecidableEq

structure VertexAttrib where
  props : VertexAttribProps
  offset : Nat
  normalized : Bool
  deriving Repr, DecidableEq

structure VertexFormat where
  attribs : List VertexAttrib
  stride : Nat
  deriving Repr, DecidableEq

/-- struct Shader of main.cpp: a linked program plus its declared inputs. -/
structure Shader where
  program : Nat
  attribs : List VertexAttribProps
  deriving Repr, DecidableEq

structure Material where
  shader : Shader
  deriving Repr, DecidableEq

structure VertexBuffer where
  buffer : Nat
  offset : Nat
  format : VertexFormat
  deriving Repr, DecidableEq

structure IndexBuffer where
  buffer : Nat
  offset : Nat
  type : IndexType
  deriving Repr, DecidableEq

structure Mesh where
  material : Material
  vao : Nat
  vertex_buffers : List VertexBuffer
  vertex_count : Nat
  primitive : Primitive
  index_buffer : Option IndexBuffer
  index_count : Nat
  deriving Repr, DecidableEq

/-- gl::DrawElementsIndirectCommand (gl.h). `baseVertex` is a signed int. -/
structure DrawElementsIndirectCommand where
  count : Nat
  instanceCount : Nat
  firstIndex : Nat
  baseVertex : Int
  baseInstance : Nat
  deriving Repr, DecidableEq

/-- Trace alphabet: the OpenGL calls the program issues (state queries
such as glGetShaderiv are driver reads and are not traced). -/
inductive GLCall where
  | UseProgram (program : Nat)
  | BindVertexArray (vao : Nat)
  | MultiDrawElementsIndirect (mode idxType : Nat)
      (commands : List DrawElementsIndirectCommand) (drawcount stride : Nat)
  | DrawArrays (mode : Nat) (first count : Int)
  | VertexArrayVertexBuffer (vao bindingindex buffer : Nat)
      (offset stride : Int)
  | EnableVertexArrayAttrib (vao index : Nat)
  | VertexArrayAttribBinding (vao attribindex bindingindex : Nat)
  | VertexArrayAttribFormat (vao attribindex : Nat) (size : Int)
      (scalarType : Nat) (normalized : Bool) (relativeoffset : Nat)
  | VertexArrayElementBuffer (vao buffer : Nat)
  | ShaderSource (shader : Nat) (source : String)
  | CompileShader (shader : Nat)
  | AttachShader (program shader : Nat)
  | LinkProgram (program : Nat)
  | NamedBufferData (buffer size usage : Nat)
  deriving Repr, DecidableEq

/-- static_cast to 32-bit unsigned (GLuint / unsigned int). -/
def toUInt32 (n : Nat) : Nat := n % 4294967296

/-- static_cast to 32-bit signed (GLint), twos-complement. -/
def toInt32 (n : Nat) : Int :=
  if n % 4294967296 < 2147483648 then ((n % 4294967296 : Nat) : Int)
  else ((n % 4294967296 : Nat) : Int) - 4294967296

/-- Conversion of a size_t value to the 64-bit signed GLintptr. -/
def toInt64 (n : Nat) : Int :=
  if n % 18446744073709551616 < 9223372036854775808 then
    ((n % 18446744073709551616 : Nat) : Int)
  else ((n % 18446744073709551616 : Nat) : Int) - 18446744073709551616

/-- draw_mesh (main.cpp, lines 262-285): binds program and VAO, then
issues one indexed multi-draw when an index buffer is present, and one
glDrawArrays call otherwise. Both branches read `mesh.index_count`. -/
def draw_mesh (mesh : Mesh) : List GLCall :=
  GLCall.UseProgram mesh.material.shader.program ::
  GLCall.BindVertexArray mesh.vao ::
  (match mesh.index_buffer with
   | some ib =>
     let commands : List DrawElementsIndirectCommand :=
       [{ count := toUInt32 mesh.index_count, instanceCount := 1,
          firstIndex := 0, baseVertex := 0, baseInstance := 0 }]
     [GLCall.MultiDrawElementsIndirect mesh.primitive.toGLenum ib.type.toGLenum
       commands commands.length 0]
   | none => [GLCall.DrawArrays mesh.primitive.toGLenum 0 (toInt32 mesh.index_count)])

/-! ## Mesh assembly (the VAO-setup loop of load_mesh, main.cpp 216-249) -/

/-- Calls issued for one attribute of one vertex buffer. The size_t
component count is narrowed by static_cast<GLint> (main.cpp:232) and
the size_t byte offset passes into the GLuint relativeoffset parameter
of glVertexArrayAttribFormat (main.cpp:243). -/
def setupAttrib (vao bufferIdx : Nat) (attrib : VertexAttrib) : List GLCall :=
  [GLCall.EnableVertexArrayAttrib vao attrib.props.location,
   GLCall.VertexArrayAttribBinding vao attrib.props.location bufferIdx,
   GLCall.VertexArrayAttribFormat vao attrib.props.location
     (toInt32 attrib.props.size) attrib.props.type.toGLenum attrib.normalized
     (toUInt32 attrib.offset)]

/-- Calls issued for one vertex buffer bound at binding slot `bufferIdx`.
The size_t byte offset passes into the 64-bit signed GLintptr parameter
and the size_t stride is narrowed to GLsizei in glVertexArrayVertexBuffer
(main.cpp:221-227). -/
def setupVertexBuffer (vao bufferIdx : Nat) (vb : VertexBuffer) : List GLCall :=
  GLCall.VertexArrayVertexBuffer vao bufferIdx vb.buffer (toInt64 vb.offset)
    (toInt32 vb.format.stride) ::
  (vb.format.attribs.map (setupAttrib vao bufferIdx)).flatten

/-- The for-loop over vertex buffers: buffer at list position `i` gets
binding slot `start + i`. -/
def setupBuffers (vao : Nat) : Nat → List VertexBuffer → List GLCall
  | _, [] => []
  | bufferIdx, vb :: rest =>
    setupVertexBuffer vao bufferIdx vb ++ setupBuffers vao (bufferIdx + 1) rest

/-- The whole VAO-assembly algorithm of load_mesh, generic in the vertex
buffers and the optional index buffer. -/
def setupVAO (vao : Nat) (vbs : List VertexBuffer) (ib : Option IndexBuffer) :
    List GLCall :=
  setupBuffers vao 0 vbs ++
  (match ib with
   | some b => [GLCall.VertexArrayElementBuffer vao b.buffer]
   | none => [])

/-! ## gl::Shader::compile, gl::Program::link, gl::Buffer::upload_data -/

namespace gl

/-- gl::CompilationError (gl.h): what() is built by
std::format with the fixed text prefix applied to the driver log. -/
structure CompilationError where
  message : String
  deriving Repr, DecidableEq

def CompilationError.ofLog (log : String) : CompilationError :=
  { message := "Failed to compile shader: " ++ log }

/-- gl::LinkError (gl.h). -/
structure LinkError where
  message : String
  deriving Repr, DecidableEq

def LinkError.ofLog (log : String) : LinkError :=
  { message := "Failed to link program: " ++ log }

/-- The response of the driver to compiling the currently attached source:
the GL_COMPILE_STATUS value and the info log (the GL_INFO_LOG_LENGTH /
glGetShaderInfoLog dance in the source retrieves exactly this log). -/
structure CompileDriver where
  compile_status : Nat
  info_log : String
  deriving Repr, DecidableEq

structure LinkDriver where
  link_status : Nat
  info_log : String
  deriving Repr, DecidableEq

structure Shader where
  handle : Nat
  deriving Repr, DecidableEq

structure Program where
  handle : Nat
  deriving Repr, DecidableEq

def Shader.add_source (sh : Shader) (source : String) : List GLCall :=
  [GLCall.ShaderSource sh.handle source]

/-- gl::Shader::compile (gl.cpp 32-55): one glCompileShader call, then a
status query; on any status other than GL_TRUE the driver log is
retrieved in full and a CompilationError carrying it is thrown. -/
def Shader.compile (sh : Shader) (d : CompileDriver) :
    List GLCall × Except CompilationError Unit :=
  ([GLCall.CompileShader sh.handle],
   if d.compile_status ≠ GL_TRUE then
     Except.error (CompilationError.ofLog d.info_log)
   else Except.ok ())

def Program.attach_shader (p : Program) (shader : Nat) : List GLCall :=
  [GLCall.AttachShader p.handle shader]

/-- gl::Program::link (gl.cpp 82-105): one glLinkProgram call, then a
status query; on any status other than GL_TRUE a LinkError carrying the
full link log is thrown. -/
def Program.link (p : Program) (d : LinkDriver) :
    List GLCall × Except LinkError Unit :=
  ([GLCall.LinkProgram p.handle],
   if d.link_status ≠ GL_TRUE then
     Except.error (LinkError.ofLog d.info_log)
   else Except.ok ())

/-- Driver-side data store of one buffer object. -/
structure BufferStore where
  contents : List Nat
  usage : Option Nat
  deriving Repr, DecidableEq

/-- glNamedBufferData: orphans the old store and reallocates it with
`size` bytes read from the given memory, tagged with the usage hint.
The previous contents do not survive. -/
def glNamedBufferData ( _b : BufferStore) (size : Nat) (bytes : List Nat)
    (usage : Nat) : BufferStore :=
  { contents := bytes.take size, usage := some usage }

/-- gl::Buffer::upload_data template overload (gl.h 73-83): takes a
contiguous range of typed records — here, the byte image of each record,
each of byte size `elemSize` — computes size = count × element size and
forwards the raw pointer and size to glNamedBufferData. -/
def Buffer.upload_data (b : BufferStore) (records : List (List Nat))
    (elemSize usage : Nat) : BufferStore :=
  glNamedBufferData b (records.length * elemSize) records.flatten usage

end gl

/-! ## load_shader and load_mesh (main.cpp) -/

/-- Environment for load_shader: the file system, and deterministic driver responses to compiling a source of a given stage and to
linking the two compiled stages. -/
structure GLEnv where
  files : String → Option String
  compileStatus : Nat → String → Nat
  compileLog : Nat → String → String
  linkStatus : Nat
  linkLog : String

inductive LoadError where
  | FileNotFound (path : String)
  | Compilation (message : String)
  | Link (message : String)
  deriving Repr, DecidableEq

def LoadError.isFileNotFound : LoadError → Bool
  | .FileNotFound _ => true
  | _ => false

/-- read_file (main.cpp 104-127): throws a runtime error naming the path
when the file does not exist, otherwise returns the whole contents. -/
def read_file (env : GLEnv) (path : String) : Except LoadError String :=
  match env.files path with
  | none => Except.error (LoadError.FileNotFound path)
  | some content => Except.ok content

/-- Number of glCompileShader calls in a trace. -/
def compileCalls (calls : List GLCall) : Nat :=
  calls.countP (fun c => match c with
    | GLCall.CompileShader _ => true
    | _ => false)

/-- load_shader (main.cpp 131-169): reads and compiles name.frag, then
reads and compiles name.vert, then links both into a program and
records the hardcoded position attribute. Shader and program handles
are numbered as a fresh driver would issue them. -/
def load_shader (env : GLEnv) (name : String) :
    List GLCall × Except LoadError Shader :=
  let frag : gl.Shader := { handle := 1 }
  match read_file env (name ++ ".frag") with
  | Except.error e => ([], Except.error e)
  | Except.ok frag_source =>
    let calls1 := frag.add_source frag_source
    let d1 : gl.CompileDriver :=
      { compile_status := env.compileStatus GL_FRAGMENT_SHADER frag_source,
        info_log := env.compileLog GL_FRAGMENT_SHADER frag_source }
    let (calls2, r1) := frag.compile d1
    match r1 with
    | Except.error e =>
      (calls1 ++ calls2, Except.error (LoadError.Compilation e.message))
    | Except.ok _ =>
      let vert : gl.Shader := { handle := 2 }
      match read_file env (name ++ ".vert") with
      | Except.error e => (calls1 ++ calls2, Except.error e)
      | Except.ok vert_source =>
        let calls3 := vert.add_source vert_source
        let d2 : gl.CompileDriver :=
          { compile_status := env.compileStatus GL_VERTEX_SHADER vert_source,
            info_log := env.compileLog GL_VERTEX_SHADER vert_source }
        let (calls4, r2) := vert.compile d2
        match r2 with
        | Except.error e =>
          (calls1 ++ calls2 ++ calls3 ++ calls4,
           Except.error (LoadError.Compilation e.message))
        | Except.ok _ =>
          let program : gl.Program := { handle := 3 }
          let calls5 := program.attach_shader frag.handle ++
            program.attach_shader vert.handle
          let d3 : gl.LinkDriver :=
            { link_status := env.linkStatus, info_log := env.linkLog }
          let (calls6, r3) := program.link d3
          match r3 with
          | Except.error e =>
            (calls1 ++ calls2 ++ calls3 ++ calls4 ++ calls5 ++ calls6,
             Except.error (LoadError.Link e.message))
          | Except.ok _ =>
            (calls1 ++ calls2 ++ calls3 ++ calls4 ++ calls5 ++ calls6,
             Except.ok { program := program.handle,
                         attribs := [{ location := AttribLocation_position,
                                       type := AttribType.f32, size := 3 }] })

/-- The compiled-in triangle vertex array (main.cpp 171-181): nine
floats, three position components per vertex. -/
def vertex_data : List Rat := [1/2, -1/2, 0, 0, 1/2, 0, -1/2, -1/2, 0]

/-- The compiled-in 8-bit index array (main.cpp 183). -/
def index_data : List Nat := [2, 1, 0]

/-- load_mesh (main.cpp 185-260): uploads vertex_data into a fresh
buffer (sizeof float = 4 bytes per element), builds the single
VertexBuffer with the position attribute, uploads index_data into a
second fresh buffer marked 8-bit, assembles the VAO and returns the
Mesh. -/
def load_mesh (d0 : GLDriver) (material : Material) :
    GLDriver × Mesh × List GLCall :=
  let (d1, bufH) := glCreate d0
  let c1 := [GLCall.NamedBufferData bufH (vertex_data.length * 4) GL_STATIC_DRAW]
  let vbs : List VertexBuffer :=
    [{ buffer := bufH, offset := 0,
       format := { attribs := [{ props := { location := AttribLocation_position,
                                            type := AttribType.f32, size := 3 },
                                 offset := 0, normalized := false }],
                   stride := 4 * 3 } }]
  let (d2, idxH) := glCreate d1
  let ib : IndexBuffer := { buffer := idxH, offset := 0, type := IndexType.u8 }
  let c2 := [GLCall.NamedBufferData idxH (index_data.length * 1) GL_STATIC_DRAW]
  let (d3, vaoH) := glCreate d2
  let c3 := setupVAO vaoH vbs (some ib)
  (d3,
   { material := material, vao := vaoH, vertex_buffers := vbs,
     vertex_count := vertex_data.length, primitive := Primitive.triangles,
     index_buffer := some ib, index_count := index_data.length },
   c1 ++ c2 ++ c3)

/-! ## Concrete inputs used by counterexamples and witnesses -/

/-- Discriminator: does a load_shader result carry a file-not-found
error. -/
def resultIsFileNotFound (r : Except LoadError Shader) : Bool :=
  match r with
  | Except.error e => e.isFileNotFound
  | Except.ok _ => false

/-- Number of glDrawArrays calls in a trace. -/
def drawArraysCalls (calls : List GLCall) : Nat :=
  calls.countP (fun c => match c with
    | GLCall.DrawArrays _ _ _ => true
    | _ => false)

/-- Number of glMultiDrawElementsIndirect calls in a trace. -/
def multiDrawCalls (calls : List GLCall) : Nat :=
  calls.countP (fun c => match c with
    | GLCall.MultiDrawElementsIndirect _ _ _ _ _ => true
    | _ => false)

/-- A concrete vertex buffer used by witnesses. -/
def vbWitness : VertexBuffer :=
  { buffer := 11, offset := 4,
    format := { attribs := [{ props := { location := 2, type := AttribType.f32,
                                         size := 3 },
                              offset := 8, normalized := true }],
                stride := 24 } }

/-- A concrete index buffer used by witnesses. -/
def ibWitness : IndexBuffer := { buffer := 12, offset := 0, type := IndexType.u32 }

/-- A vertex buffer whose attribute declares a component count that does
not fit in a 32-bit GLint. -/
def vbHuge : VertexBuffer :=
  { buffer := 3, offset := 0,
    format := { attribs := [{ props := { location := 0, type := AttribType.f32,
                                         size := 4294967299 },
                              offset := 0, normalized := false }],
                stride := 12 } }

/-- A mesh without an index buffer whose vertex_count and index_count
differ (the struct allows this freely; load_mesh itself happens to
always attach an index buffer). -/
def meshNoIndex : Mesh :=
  { material := { shader := { program := 1, attribs := [] } }, vao := 2,
    vertex_buffers := [], vertex_count := 9, primitive := .triangles,
    index_buffer := none, index_count := 3 }

/-- An indexed mesh whose index_count does not fit in 32 bits. -/
def meshHuge : Mesh :=
  { material := { shader := { program := 1, attribs := [] } }, vao := 2,
    vertex_buffers := [], vertex_count := 3, primitive := .triangles,
    index_buffer := some { buffer := 5, offset := 0, type := IndexType.u8 },
    index_count := 4294967296 }

/-- A small indexed mesh used by witnesses. -/
def meshSmall : Mesh :=
  { material := { shader := { program := 7, attribs := [] } }, vao := 8,
    vertex_buffers := [], vertex_count := 4, primitive := .triangles,
    index_buffer := some { buffer := 9, offset := 0, type := IndexType.u16 },
    index_count := 5 }

/-- Environment where main.frag exists but fails to compile and
main.vert is absent. -/
def envFragBad : GLEnv :=
  { files := fun p => if p = "main.frag" then some "bad" else none,
    compileStatus := fun _ _ => 0, compileLog := fun _ _ => "invalid source",
    linkStatus := GL_TRUE, linkLog := "" }

/-- Environment with no files at all. -/
def envNoFiles : GLEnv :=
  { files := fun _ => none, compileStatus := fun _ _ => GL_TRUE,
    compileLog := fun _ _ => "", linkStatus := GL_TRUE, linkLog := "" }

/-- Environment where main.frag exists and compiles but main.vert is
absent. -/
def envVertMissing : GLEnv :=
  { files := fun p => if p = "main.frag" then some "frag src" else none,
    compileStatus := fun _ _ => GL_TRUE, compileLog := fun _ _ => "",
    linkStatus := GL_TRUE, linkLog := "" }

theorem inv_init : Inv initState := by
  refine ⟨Nat.le_refl 1, ?_, ?_, ?_⟩
  · intro h h1 h2
    simp [initState, GLDriver.init] at h1 h2
    omega
  · intro h hmem
    simp [initState, GLDriver.init] at hmem
  · intro h _ hmem
    simp [initState] at hmem

theorem glDelete_nextHandle (d : GLDriver) (h : Nat) :
    (glDelete d h).nextHandle = d.nextHandle := by
  unfold glDelete
  by_cases h0 : h = 0 <;> simp [h0]

theorem cnt_glDelete (d : GLDriver) (h x : Nat) (hx : 1 ≤ x) :
    cnt x (glDelete d h).released =
      cnt x d.released + (if h = x then 1 else 0) := by
  unfold glDelete
  by_cases h0 : h = 0
  · subst h0
    have h0x : ¬((0 : Nat) = x) := by omega
    simp [if_neg h0x]
  · simp [h0, cnt_cons]
    omega

theorem mem_glDelete (d : GLDriver) (h x : Nat)
    (hmem : x ∈ (glDelete d h).released) :
    x ∈ d.released ∨ (x = h ∧ h ≠ 0) := by
  unfold glDelete at hmem
  by_cases h0 : h = 0
  · rw [if_pos h0] at hmem
    exact Or.inl hmem
  · rw [if_neg h0] at hmem
    rcases List.mem_cons.mp hmem with hmem | hmem
    · exact Or.inr ⟨hmem, h0⟩
    · exact Or.inl hmem

theorem inv_construct (s : WrapperState) (hs : Inv s) :
    Inv { gl := { nextHandle := s.gl.nextHandle + 1, released := s.gl.released },
          objs := s.objs ++ [some s.gl.nextHandle] } := by
  refine ⟨?_, ?_, ?_, ?_⟩
  · have := hs.next_pos
    dsimp only
    omega
  · intro x x1 x2
    dsimp only at x2 ⊢
    unfold owners
    rw [cnt_append]
    by_cases hx : x = s.gl.nextHandle
    · have hnotown : cnt (some x) s.objs = 0 := cnt_eq_zero_of_not_mem
        (fun hmem => absurd (hs.owned_created x (by omega) hmem) (by omega))
      have hnotrel : cnt x s.gl.released = 0 := cnt_eq_zero_of_not_mem
        (fun hmem => absurd ((hs.released_created x hmem).2) (by omega))
      have hsing : cnt (some x) [some s.gl.nextHandle] = 1 := by
        simp [cnt, hx]
      omega
    · have hb := hs.balance x x1 (by omega)
      unfold owners at hb
      have hne : ¬(some s.gl.nextHandle = some x) := by
        simp only [Option.some.injEq]
        omega
      have hsing : cnt (some x) [some s.gl.nextHandle] = 0 := by
        simp only [cnt, if_neg hne]
      omega
  · intro x hmem
    dsimp only at hmem ⊢
    have := hs.released_created x hmem
    omega
  · intro x hne hmem
    dsimp only at hmem ⊢
    rcases List.mem_append.mp hmem with hmem | hmem
    · have := hs.owned_created x hne hmem
      omega
    · have heq := List.mem_singleton.mp hmem
      have := Option.some.inj heq
      omega

theorem inv_moveConstruct (s : WrapperState) (src : Nat) (h : Nat)
    (hget : s.objs[src]? = some (some h)) (hs : Inv s) :
    Inv { s with objs := s.objs.set src (some 0) ++ [some h] } := by
  refine ⟨hs.next_pos, ?_, hs.released_created, ?_⟩
  · intro x x1 x2
    dsimp only at x2 ⊢
    unfold owners
    rw [cnt_append]
    have heq := cnt_set s.objs src (some h) (some 0) (some x) hget
    simp only [Option.some.injEq] at heq
    have h0x : ¬((0 : Nat) = x) := by omega
    rw [if_neg h0x] at heq
    have hb := hs.balance x x1 x2
    unfold owners at hb
    have hsing : cnt (some x) [some h] = if h = x then 1 else 0 := by
      simp only [cnt, Option.some.injEq]
      omega
    omega
  · intro x hne hmem
    dsimp only at hmem ⊢
    rcases List.mem_append.mp hmem with hmem | hmem
    · rcases List.mem_or_eq_of_mem_set hmem with hmem | hmem
      · exact hs.owned_created x hne hmem
      · exact absurd (Option.some.inj hmem) hne
    · have heq := Option.some.inj (List.mem_singleton.mp hmem)
      subst heq
      exact hs.owned_created x hne (List.getElem?_mem hget)

theorem inv_moveAssign (s : WrapperState) (dst src hd hs0 : Nat)
    (hdst : s.objs[dst]? = some (some hd))
    (hsrc : s.objs[src]? = some (some hs0)) (hs : Inv s) :
    Inv { gl := glDelete s.gl hd,
          objs := (s.objs.set dst (some hs0)).set src (some 0) } := by
  have hsrclt : src < s.objs.length := (List.getElem?_eq_some_iff.mp hsrc).1
  have hdstlt : dst < s.objs.length := (List.getElem?_eq_some_iff.mp hdst).1
  have hmid : (s.objs.set dst (some hs0))[src]? = some (some hs0) := by
    by_cases hds : dst = src
    · subst hds
      rw [List.getElem?_set_self (by simpa using hdstlt)]
    · rw [List.getElem?_set_ne hds]
      exact hsrc
  refine ⟨?_, ?_, ?_, ?_⟩
  · dsimp only
    rw [glDelete_nextHandle]
    exact hs.next_pos
  · intro x x1 x2
    dsimp only at x2 ⊢
    rw [glDelete_nextHandle] at x2
    have eq1 := cnt_set s.objs dst (some hd) (some hs0) (some x) hdst
    have eq2 := cnt_set (s.objs.set dst (some hs0)) src (some hs0)
      (some 0) (some x) hmid
    simp only [Option.some.injEq] at eq1 eq2
    have h0x : ¬((0 : Nat) = x) := by omega
    rw [if_neg h0x] at eq2
    have hrel := cnt_glDelete s.gl hd x x1
    have hb := hs.balance x x1 x2
    unfold owners at hb ⊢
    omega
  · intro x hmem
    dsimp only at hmem ⊢
    rw [glDelete_nextHandle]
    rcases mem_glDelete s.gl hd x hmem with hmem | ⟨hxeq, h0⟩
    · exact hs.released_created x hmem
    · subst hxeq
      exact ⟨by omega, hs.owned_created x h0 (List.getElem?_mem hdst)⟩
  · intro x hne hmem
    dsimp only at hmem ⊢
    rw [glDelete_nextHandle]
    rcases List.mem_or_eq_of_mem_set hmem with hmem | hmem
    · rcases List.mem_or_eq_of_mem_set hmem with hmem | hmem
      · exact hs.owned_created x hne hmem
      · have heq := Option.some.inj hmem
        subst heq
        exact hs.owned_created x hne (List.getElem?_mem hsrc)
    · exact absurd (Option.some.inj hmem) hne

theorem inv_destroy (s : WrapperState) (i h : Nat)
    (hget : s.objs[i]? = some (some h)) (hs : Inv s) :
    Inv { gl := glDelete s.gl h, objs := s.objs.set i none } := by
  refine ⟨?_, ?_, ?_, ?_⟩
  · dsimp only
    rw [glDelete_nextHandle]
    exact hs.next_pos
  · intro x x1 x2
    dsimp only at x2 ⊢
    rw [glDelete_nextHandle] at x2
    have eq1 := cnt_set s.objs i (some h) none (some x) hget
    simp only [Option.some.injEq] at eq1
    have hnone : (if (none : Option Nat) = some x then 1 else 0) = 0 := by simp
    have hrel := cnt_glDelete s.gl h x x1
    have hb := hs.balance x x1 x2
    unfold owners at hb ⊢
    omega
  · intro x hmem
    dsimp only at hmem ⊢
    rw [glDelete_nextHandle]
    rcases mem_glDelete s.gl h x hmem with hmem | ⟨hxeq, h0⟩
    · exact hs.released_created x hmem
    · subst hxeq
      exact ⟨by omega, hs.owned_created x h0 (List.getElem?_mem hget)⟩
  · intro x hne hmem
    dsimp only at hmem ⊢
    rw [glDelete_nextHandle]
    rcases List.mem_or_eq_of_mem_set hmem with hmem | hmem
    · exact hs.owned_created x hne hmem
    · cases hmem

theorem step_construct_eq (s : WrapperState) :
    step s .construct =
      { gl := { nextHandle := s.gl.nextHandle + 1, released := s.gl.released },
        objs := s.objs ++ [some s.gl.nextHandle] } := by
  simp only [step, glCreate]

theorem step_moveConstruct_eq (s : WrapperState) (src h : Nat)
    (hget : s.objs[src]? = some (some h)) :
    step s (.moveConstruct src) =
      { s with objs := s.objs.set src (some 0) ++ [some h] } := by
  simp only [step, hget]

theorem step_moveAssign_eq (s : WrapperState) (dst src hd hs0 : Nat)
    (hdst : s.objs[dst]? = some (some hd))
    (hsrc : s.objs[src]? = some (some hs0)) :
    step s (.moveAssign dst src) =
      { gl := glDelete s.gl hd,
        objs := (s.objs.set dst (some hs0)).set src (some 0) } := by
  simp only [step, hdst, hsrc]

theorem step_destroy_eq (s : WrapperState) (i h : Nat)
    (hget : s.objs[i]? = some (some h)) :
    step s (.destroy i) =
      { gl := glDelete s.gl h, objs := s.objs.set i none } := by
  simp only [step, hget]

theorem inv_step (s : WrapperState) (op : Op) (hs : Inv s) : Inv (step s op) := by
  cases op with
  | construct =>
    rw [step_construct_eq]
    exact inv_construct s hs
  | moveConstruct src =>
    cases hget : s.objs[src]? with
    | none => simpa [step, hget] using hs
    | some o =>
      cases o with
      | none => simpa [step, hget] using hs
      | some h =>
        rw [step_moveConstruct_eq s src h hget]
        exact inv_moveConstruct s src h hget hs
  | moveAssign dst src =>
    cases hdst : s.objs[dst]? with
    | none => simpa [step, hdst] using hs
    | some od =>
      cases od with
      | none => simpa [step, hdst] using hs
      | some hd =>
        cases hsrc : s.objs[src]? with
        | none => simpa [step, hdst, hsrc] using hs
        | some os =>
          cases os with
          | none => simpa [step, hdst, hsrc] using hs
          | some hs0 =>
            rw [step_moveAssign_eq s dst src hd hs0 hdst hsrc]
            exact inv_moveAssign s dst src hd hs0 hdst hsrc hs
  | destroy i =>
    cases hget : s.objs[i]? with
    | none => simpa [step, hget] using hs
    | some o =>
      cases o with
      | none => simpa [step, hget] using hs
      | some h =>
        rw [step_destroy_eq s i h hget]
        exact inv_destroy s i h hget hs

theorem inv_foldl (ops : List Op) : ∀ s, Inv s → Inv (ops.foldl step s) := by
  induction ops with
  | nil => intro s hs; exact hs
  | cons op rest ih => intro s hs; exact ih (step s op) (inv_step s op hs)

theorem inv_run (ops : List Op) : Inv (run ops) := inv_foldl ops initState inv_init

theorem step_destroy_nextHandle (s : WrapperState) (i : Nat) :
    (step s (.destroy i)).gl.nextHandle = s.gl.nextHandle := by
  cases hget : s.objs[i]? with
  | none => simp [step, hget]
  | some o =>
    cases o with
    | none => simp [step, hget]
    | some h =>
      rw [step_destroy_eq s i h hget]
      exact glDelete_nextHandle s.gl h

theorem step_destroy_length (s : WrapperState) (i : Nat) :
    (step s (.destroy i)).objs.length = s.objs.length := by
  cases hget : s.objs[i]? with
  | none => simp [step, hget]
  | some o =>
    cases o with
    | none => simp [step, hget]
    | some h =>
      rw [step_destroy_eq s i h hget]
      simp [List.length_set]

theorem step_destroy_getElem_ne (s : WrapperState) (i j : Nat) (hij : i ≠ j) :
    (step s (.destroy i)).objs[j]? = s.objs[j]? := by
  cases hget : s.objs[i]? with
  | none => simp [step, hget]
  | some o =>
    cases o with
    | none => simp [step, hget]
    | some h =>
      rw [step_destroy_eq s i h hget]
      exact List.getElem?_set_ne hij

theorem step_destroy_getElem_self (s : WrapperState) (i : Nat)
    (hi : i < s.objs.length) :
    (step s (.destroy i)).objs[i]? = some none := by
  cases hget : s.objs[i]? with
  | none =>
    exfalso
    have := List.getElem?_eq_none_iff.mp hget
    omega
  | some o =>
    cases o with
    | none =>
      simp only [step, hget]
    | some h =>
      rw [step_destroy_eq s i h hget]
      simp only
      exact List.getElem?_set_self hi

theorem destroyFrom_nextHandle (s : WrapperState) :
    ∀ n, (destroyFrom s n).gl.nextHandle = s.gl.nextHandle
  | 0 => rfl
  | n + 1 => by
    show (step (destroyFrom s n) (.destroy n)).gl.nextHandle = s.gl.nextHandle
    rw [step_destroy_nextHandle, destroyFrom_nextHandle s n]

theorem destroyFrom_length (s : WrapperState) :
    ∀ n, (destroyFrom s n).objs.length = s.objs.length
  | 0 => rfl
  | n + 1 => by
    show (step (destroyFrom s n) (.destroy n)).objs.length = s.objs.length
    rw [step_destroy_length, destroyFrom_length s n]

theorem destroyFrom_getElem_none (s : WrapperState) :
    ∀ n j, j < n → j < s.objs.length → (destroyFrom s n).objs[j]? = some none
  | 0, j, hj, _ => absurd hj (Nat.not_lt_zero j)
  | n + 1, j, hj, hjl => by
    show (step (destroyFrom s n) (.destroy n)).objs[j]? = some none
    by_cases hjn : j = n
    · subst hjn
      exact step_destroy_getElem_self _ j (by rw [destroyFrom_length]; exact hjl)
    · rw [step_destroy_getElem_ne _ n j (fun he => hjn he.symm)]
      exact destroyFrom_getElem_none s n j (by omega) hjl

theorem not_mem_destroyAll (s : WrapperState) (x : Nat) :
    some x ∉ (destroyAll s).objs := by
  intro hmem
  rcases List.mem_iff_getElem?.mp hmem with ⟨j, hj⟩
  have hjl : j < (destroyAll s).objs.length := (List.getElem?_eq_some_iff.mp hj).1
  have hlen : (destroyAll s).objs.length = s.objs.length := destroyFrom_length s _
  have hnone := destroyFrom_getElem_none s s.objs.length j (by omega) (by omega)
  rw [destroyAll] at hj
  rw [hnone] at hj
  simp at hj

theorem inv_destroyFrom (s : WrapperState) (hs : Inv s) : ∀ n, Inv (destroyFrom s n)
  | 0 => hs
  | n + 1 => inv_step _ _ (inv_destroyFrom s hs n)

theorem inv_destroyAll (s : WrapperState) (hs : Inv s) : Inv (destroyAll s) :=
  inv_destroyFrom s hs s.objs.length

/-- C1: For every sequence of construct, move-construct, move-assign and
destroy operations on a handle wrapper type (gl::Shader, gl::Program,
gl::Buffer and gl::VAO all have this exact structure, differing only in
which driver create/delete pair they call):
(1) once all remaining wrappers are destroyed, every driver resource
acquired at construction has been released exactly once;
(2) destroying a moved-from wrapper — whose handle is the sentinel 0 —
performs no release;
(3) a resource overwritten by move-assignment is released at assignment
time. -/
theorem C1_release_exactly_once :
    (∀ (ops : List Op) (h : Nat), 1 ≤ h → h < (run ops).gl.nextHandle →
      cnt h (destroyAll (run ops)).gl.released = 1) ∧
    (∀ (ops : List Op) (i : Nat), (run ops).objs[i]? = some (some 0) →
      (step (run ops) (.destroy i)).gl.released = (run ops).gl.released) ∧
    (∀ (ops : List Op) (dst src hd hs0 : Nat),
      (run ops).objs[dst]? = some (some hd) →
      (run ops).objs[src]? = some (some hs0) → hd ≠ 0 →
      (step (run ops) (.moveAssign dst src)).gl.released =
        hd :: (run ops).gl.released) := by
  refine ⟨?_, ?_, ?_⟩
  · intro ops h h1 h2
    have hinv := inv_destroyAll (run ops) (inv_run ops)
    have hnext : (destroyAll (run ops)).gl.nextHandle = (run ops).gl.nextHandle :=
      destroyFrom_nextHandle (run ops) _
    have hb := hinv.balance h h1 (by omega)
    have hown : owners (destroyAll (run ops)).objs h = 0 :=
      cnt_eq_zero_of_not_mem (not_mem_destroyAll (run ops) h)
    omega
  · intro ops i hget
    rw [step_destroy_eq (run ops) i 0 hget]
    simp [glDelete]
  · intro ops dst src hd hs0 hdst hsrc hd0
    rw [step_moveAssign_eq (run ops) dst src hd hs0 hdst hsrc]
    simp [glDelete, hd0]

theorem C1_release_exactly_once_witness :
    (1 ≤ 1 ∧ 1 < (run [Op.construct]).gl.nextHandle ∧
      cnt 1 (destroyAll (run [Op.construct])).gl.released = 1) ∧
    ((run [Op.construct, Op.moveConstruct 0]).objs[0]? = some (some 0) ∧
      (step (run [Op.construct, Op.moveConstruct 0]) (Op.destroy 0)).gl.released =
        (run [Op.construct, Op.moveConstruct 0]).gl.released) ∧
    ((run [Op.construct, Op.construct]).objs[0]? = some (some 1) ∧
      (run [Op.construct, Op.construct]).objs[1]? = some (some 2) ∧
      (step (run [Op.construct, Op.construct]) (Op.moveAssign 0 1)).gl.released =
        1 :: (run [Op.construct, Op.construct]).gl.released) :=
  ⟨⟨by decide, by decide,
    C1_release_exactly_once.1 [Op.construct] 1 (by decide) (by decide)⟩,
   ⟨by decide,
    C1_release_exactly_once.2.1 [Op.construct, Op.moveConstruct 0] 0 (by decide)⟩,
   ⟨by decide, by decide,
    C1_release_exactly_once.2.2 [Op.construct, Op.construct] 0 1 1 2
      (by decide) (by decide) (by decide)⟩⟩

/-- C10: Self-move-assignment (w = std::move(w)) on a wrapper that owns a
resource releases that resource exactly once, leaves the wrapper holding
the sentinel handle 0, and the subsequent destructor performs no further
release: the total release count of the resource ends at exactly 1. The code
achieves this because the store of 0 into `other.handle` aliases
`this->handle` and happens after the handle copy. -/
theorem C10_self_move_assign_safe :
    ∀ (ops : List Op) (i h : Nat),
      (run ops).objs[i]? = some (some h) → h ≠ 0 →
      (step (run ops) (.moveAssign i i)).gl.released =
        h :: (run ops).gl.released ∧
      (step (run ops) (.moveAssign i i)).objs[i]? = some (some 0) ∧
      (step (step (run ops) (.moveAssign i i)) (.destroy i)).gl.released =
        h :: (run ops).gl.released ∧
      cnt h (step (step (run ops) (.moveAssign i i)) (.destroy i)).gl.released = 1 := by
  intro ops i h hget hne
  have hlt : i < (run ops).objs.length := (List.getElem?_eq_some_iff.mp hget).1
  have hstep := step_moveAssign_eq (run ops) i i h h hget hget
  have hobjs : ((run ops).objs.set i (some h)).set i (some 0) =
      (run ops).objs.set i (some 0) := List.set_set _ _ _ _
  have hgl : glDelete (run ops).gl h =
      { (run ops).gl with released := h :: (run ops).gl.released } := by
    unfold glDelete
    rw [if_neg hne]
  have hget0 : (step (run ops) (.moveAssign i i)).objs[i]? = some (some 0) := by
    rw [hstep]
    simp only [hobjs]
    exact List.getElem?_set_self (by simpa using hlt)
  have hrel1 : (step (run ops) (.moveAssign i i)).gl.released =
      h :: (run ops).gl.released := by
    rw [hstep, hgl]
  have hstep2 := step_destroy_eq (step (run ops) (.moveAssign i i)) i 0 hget0
  have hrel2 : (step (step (run ops) (.moveAssign i i)) (.destroy i)).gl.released =
      h :: (run ops).gl.released := by
    rw [hstep2]
    simp only [glDelete, if_pos rfl]
    exact hrel1
  refine ⟨hrel1, hget0, hrel2, ?_⟩
  rw [hrel2, cnt_cons, if_pos rfl]
  have hinv := inv_run ops
  have h1 : 1 ≤ h := by omega
  have h2 : h < (run ops).gl.nextHandle :=
    hinv.owned_created h hne (List.getElem?_mem hget)
  have hb := hinv.balance h h1 h2
  have hown : 1 ≤ cnt (some h) (run ops).objs :=
    cnt_pos_of_mem (List.getElem?_mem hget)
  unfold owners at hb
  omega

theorem C10_self_move_assign_safe_witness :
    (run [Op.construct]).objs[0]? = some (some 1) ∧
    (step (run [Op.construct]) (Op.moveAssign 0 0)).gl.released =
      1 :: (run [Op.construct]).gl.released ∧
    (step (run [Op.construct]) (Op.moveAssign 0 0)).objs[0]? = some (some 0) ∧
    (step (step (run [Op.construct]) (Op.moveAssign 0 0)) (Op.destroy 0)).gl.released =
      1 :: (run [Op.construct]).gl.released ∧
    cnt 1 (step (step (run [Op.construct]) (Op.moveAssign 0 0)) (Op.destroy 0)).gl.released = 1 := by
  have := C10_self_move_assign_safe [Op.construct] 0 1 (by decide) (by decide)
  exact ⟨by decide, this.1, this.2.1, this.2.2.1, this.2.2.2⟩

/-! ## Claims about the draw pipeline, mesh assembly, shader loading -/

/-- C2: the claim states the non-indexed path draws `vertex_count`
vertices, but the code passes `mesh.index_count` to glDrawArrays
(main.cpp 283); the `vertex_count` field is never read anywhere. At
`meshNoIndex` (vertex_count 9, index_count 3) the single non-indexed
draw call requests 3 vertices, not 9. -/
theorem C2_non_indexed_draw_uses_index_count :
    draw_mesh meshNoIndex =
      [GLCall.UseProgram 1, GLCall.BindVertexArray 2,
       GLCall.DrawArrays GL_TRIANGLES 0 3] ∧
    meshNoIndex.vertex_count = 9 ∧ meshNoIndex.index_count = 3 ∧
    (3 : Int) ≠ (9 : Int) := by
  refine ⟨by decide, rfl, rfl, by decide⟩

/-- C3 counterexample: the command count is the 32-bit truncation of
`index_count` (`static_cast<unsigned int>`), so at index_count = 2^32
the count of the single command is 0, not index_count. -/
theorem C3_count_truncated_counterexample :
    meshHuge.index_count = 4294967296 ∧
    draw_mesh meshHuge =
      [GLCall.UseProgram 1, GLCall.BindVertexArray 2,
       GLCall.MultiDrawElementsIndirect GL_TRIANGLES GL_UNSIGNED_BYTE
         [{ count := 0, instanceCount := 1, firstIndex := 0, baseVertex := 0,
            baseInstance := 0 }] 1 0] ∧
    (0 : Nat) ≠ 4294967296 := by
  refine ⟨rfl, by decide, by decide⟩

/-- C3 (amended): for every mesh with an index buffer, draw_mesh issues
exactly one indexed multi-draw command — count equal to index_count
reduced modulo 2^32 (hence equal to index_count whenever it fits in 32
bits), instanceCount 1, firstIndex 0, baseVertex 0, baseInstance 0,
tightly packed (stride 0), using the component type of the index buffer —
and for the triangle mesh built by load_mesh the single command has
count 3, instanceCount 1, baseVertex 0. -/
theorem C3_indexed_multidraw :
    ∀ (mesh : Mesh) (ib : IndexBuffer), mesh.index_buffer = some ib →
      (draw_mesh mesh =
        [GLCall.UseProgram mesh.material.shader.program,
         GLCall.BindVertexArray mesh.vao,
         GLCall.MultiDrawElementsIndirect mesh.primitive.toGLenum ib.type.toGLenum
           [{ count := toUInt32 mesh.index_count, instanceCount := 1,
              firstIndex := 0, baseVertex := 0, baseInstance := 0 }] 1 0] ∧
       (mesh.index_count < 4294967296 →
         toUInt32 mesh.index_count = mesh.index_count)) ∧
      ∀ (d0 : GLDriver) (m : Material),
        draw_mesh (load_mesh d0 m).2.1 =
          [GLCall.UseProgram m.shader.program,
           GLCall.BindVertexArray (load_mesh d0 m).2.1.vao,
           GLCall.MultiDrawElementsIndirect GL_TRIANGLES GL_UNSIGNED_BYTE
             [{ count := 3, instanceCount := 1, firstIndex := 0,
                baseVertex := 0, baseInstance := 0 }] 1 0] := by
  intro mesh ib hib
  refine ⟨⟨?_, fun h => Nat.mod_eq_of_lt h⟩, fun d0 m => rfl⟩
  simp [draw_mesh, hib]

theorem C3_indexed_multidraw_witness :
    meshSmall.index_buffer = some { buffer := 9, offset := 0, type := IndexType.u16 } ∧
    (draw_mesh meshSmall =
      [GLCall.UseProgram meshSmall.material.shader.program,
       GLCall.BindVertexArray meshSmall.vao,
       GLCall.MultiDrawElementsIndirect meshSmall.primitive.toGLenum
         IndexType.u16.toGLenum
         [{ count := toUInt32 meshSmall.index_count, instanceCount := 1,
            firstIndex := 0, baseVertex := 0, baseInstance := 0 }] 1 0]) ∧
    toUInt32 meshSmall.index_count = meshSmall.index_count := by
  have h := C3_indexed_multidraw meshSmall
    { buffer := 9, offset := 0, type := IndexType.u16 } rfl
  exact ⟨by decide, h.1.1, h.1.2 (by decide)⟩

theorem toInt32_of_lt (n : Nat) (h : n < 2147483648) : toInt32 n = n := by
  unfold toInt32
  have h2 : n % 4294967296 = n := Nat.mod_eq_of_lt (by omega)
  rw [h2, if_pos h]

theorem toUInt32_of_lt (n : Nat) (h : n < 4294967296) : toUInt32 n = n :=
  Nat.mod_eq_of_lt h

theorem toInt64_of_lt (n : Nat) (h : n < 9223372036854775808) : toInt64 n = n := by
  unfold toInt64
  have h2 : n % 18446744073709551616 = n := Nat.mod_eq_of_lt (by omega)
  rw [h2, if_pos h]

theorem mem_setupVertexBuffer_head (vao idx : Nat) (vb : VertexBuffer) :
    GLCall.VertexArrayVertexBuffer vao idx vb.buffer (toInt64 vb.offset)
      (toInt32 vb.format.stride) ∈ setupVertexBuffer vao idx vb := by
  simp [setupVertexBuffer]

theorem mem_setupVertexBuffer_attrib (vao idx : Nat) (vb : VertexBuffer)
    (a : VertexAttrib) (ha : a ∈ vb.format.attribs) (c : GLCall)
    (hc : c ∈ setupAttrib vao idx a) : c ∈ setupVertexBuffer vao idx vb := by
  simp only [setupVertexBuffer, List.mem_cons]
  right
  rw [List.mem_flatten]
  exact ⟨setupAttrib vao idx a, List.mem_map_of_mem _ ha, hc⟩

theorem mem_setupBuffers (vao : Nat) (c : GLCall) :
    ∀ (vbs : List VertexBuffer) (start i : Nat) (hi : i < vbs.length),
      c ∈ setupVertexBuffer vao (start + i) (vbs.get ⟨i, hi⟩) →
      c ∈ setupBuffers vao start vbs
  | [], _, i, hi, _ => absurd hi (by simp)
  | vb :: rest, start, 0, hi, hmem => by
    simp only [setupBuffers]
    refine List.mem_append.mpr (Or.inl ?_)
    simpa using hmem
  | vb :: rest, start, i + 1, hi, hmem => by
    simp only [setupBuffers]
    refine List.mem_append.mpr (Or.inr ?_)
    have harith : start + (i + 1) = start + 1 + i := by omega
    rw [harith] at hmem
    exact mem_setupBuffers vao c rest (start + 1) i
      (Nat.lt_of_succ_lt_succ hi) hmem

theorem mem_setupVAO_left (vao : Nat) (vbs : List VertexBuffer)
    (ib : Option IndexBuffer) (c : GLCall) (hc : c ∈ setupBuffers vao 0 vbs) :
    c ∈ setupVAO vao vbs ib := by
  unfold setupVAO
  exact List.mem_append.mpr (Or.inl hc)

/-- C4 counterexample: at an attribute whose size_t component count is
2^32 + 3, the assembly algorithm declares component count 3 — the
static_cast<GLint> narrowing of main.cpp:232 — not the count the
attribute holds, refuting the claim that the declared component count
always equals the attribute field. -/
theorem C4_size_truncated_counterexample :
    setupVAO 1 [vbHuge] none =
      [GLCall.VertexArrayVertexBuffer 1 0 3 0 12,
       GLCall.EnableVertexArrayAttrib 1 0,
       GLCall.VertexArrayAttribBinding 1 0 0,
       GLCall.VertexArrayAttribFormat 1 0 3 GL_FLOAT false 0] ∧
    (vbHuge.format.attribs.map fun a => a.props.size) = [4294967299] ∧
    (3 : Int) ≠ (4294967299 : Int) := by
  refine ⟨by decide, rfl, by decide⟩

/-- C4 (amended): for every sequence of vertex buffers and optional
index buffer, the mesh-assembly algorithm binds the buffer at position
i to binding slot i with the offset of that buffer (as 64-bit GLintptr)
and its stride narrowed to 32-bit GLsizei; for each attribute in the
format of that buffer, it enables the attribute at its declared input
slot, associates that slot with binding slot i, and declares the
component count narrowed to 32-bit GLint, the scalar type, the
normalization flag and the byte offset reduced to 32-bit GLuint — each
narrowed value equal to the corresponding field whenever that field is
in range, as in every buffer the program builds; and a present index
buffer is bound as the element source of the array. -/
theorem C4_mesh_assembly :
    ∀ (vao : Nat) (vbs : List VertexBuffer) (ib : Option IndexBuffer) (i : Nat)
      (hi : i < vbs.length),
      (GLCall.VertexArrayVertexBuffer vao i (vbs.get ⟨i, hi⟩).buffer
        (toInt64 (vbs.get ⟨i, hi⟩).offset)
        (toInt32 (vbs.get ⟨i, hi⟩).format.stride) ∈ setupVAO vao vbs ib) ∧
      ((vbs.get ⟨i, hi⟩).offset < 9223372036854775808 →
        toInt64 (vbs.get ⟨i, hi⟩).offset = (vbs.get ⟨i, hi⟩).offset) ∧
      ((vbs.get ⟨i, hi⟩).format.stride < 2147483648 →
        toInt32 (vbs.get ⟨i, hi⟩).format.stride = (vbs.get ⟨i, hi⟩).format.stride) ∧
      (∀ a ∈ (vbs.get ⟨i, hi⟩).format.attribs,
        GLCall.EnableVertexArrayAttrib vao a.props.location ∈ setupVAO vao vbs ib ∧
        GLCall.VertexArrayAttribBinding vao a.props.location i ∈ setupVAO vao vbs ib ∧
        GLCall.VertexArrayAttribFormat vao a.props.location (toInt32 a.props.size)
          a.props.type.toGLenum a.normalized (toUInt32 a.offset) ∈
            setupVAO vao vbs ib ∧
        (a.props.size < 2147483648 → toInt32 a.props.size = a.props.size) ∧
        (a.offset < 4294967296 → toUInt32 a.offset = a.offset)) ∧
      (∀ b, ib = some b →
        GLCall.VertexArrayElementBuffer vao b.buffer ∈ setupVAO vao vbs ib) := by
  intro vao vbs ib i hi
  have h0i : (0 : Nat) + i = i := Nat.zero_add i
  refine ⟨?_, fun h => toInt64_of_lt _ h, fun h => toInt32_of_lt _ h, ?_, ?_⟩
  · apply mem_setupVAO_left
    apply mem_setupBuffers vao _ vbs 0 i hi
    rw [h0i]
    exact mem_setupVertexBuffer_head vao i (vbs.get ⟨i, hi⟩)
  · intro a ha
    refine ⟨?_, ?_, ?_, fun h => toInt32_of_lt _ h, fun h => toUInt32_of_lt _ h⟩ <;>
      (apply mem_setupVAO_left
       apply mem_setupBuffers vao _ vbs 0 i hi
       rw [h0i]
       apply mem_setupVertexBuffer_attrib vao i _ a ha
       simp [setupAttrib])
  · intro b hb
    unfold setupVAO
    refine List.mem_append.mpr (Or.inr ?_)
    rw [hb]
    simp

theorem C4_mesh_assembly_witness :
    (0 : Nat) < [vbWitness].length ∧
    GLCall.VertexArrayVertexBuffer 42 0 11 4 24 ∈
      setupVAO 42 [vbWitness] (some ibWitness) ∧
    toInt64 vbWitness.offset = (4 : Int) ∧
    toInt32 vbWitness.format.stride = (24 : Int) ∧
    GLCall.EnableVertexArrayAttrib 42 2 ∈
      setupVAO 42 [vbWitness] (some ibWitness) ∧
    GLCall.VertexArrayAttribBinding 42 2 0 ∈
      setupVAO 42 [vbWitness] (some ibWitness) ∧
    GLCall.VertexArrayAttribFormat 42 2 3 GL_FLOAT true 8 ∈
      setupVAO 42 [vbWitness] (some ibWitness) ∧
    toInt32 3 = (3 : Int) ∧
    toUInt32 8 = 8 ∧
    GLCall.VertexArrayElementBuffer 42 12 ∈
      setupVAO 42 [vbWitness] (some ibWitness) := by
  have h := C4_mesh_assembly 42 [vbWitness] (some ibWitness) 0 (by decide)
  have ha := h.2.2.2.1
    { props := { location := 2, type := AttribType.f32, size := 3 },
      offset := 8, normalized := true } (by decide)
  exact ⟨by decide, h.1, h.2.1 (by decide), h.2.2.1 (by decide),
    ha.1, ha.2.1, ha.2.2.1, ha.2.2.2.1 (by decide), ha.2.2.2.2 (by decide),
    h.2.2.2.2 ibWitness rfl⟩

/-- C5 counterexample: with main.frag present but failing to compile and
main.vert absent, load_shader fails with a CompilationError, not a
file-not-found condition, refuting the claim that a file-not-found
failure occurs whenever either source file is absent. -/
theorem C5_compile_error_masks_missing_vert :
    envFragBad.files "main.vert" = none ∧
    (load_shader envFragBad "main").2 =
      Except.error (LoadError.Compilation "Failed to compile shader: invalid source") ∧
    resultIsFileNotFound (load_shader envFragBad "main").2 = false := by
  refine ⟨rfl, rfl, by decide⟩

/-- C5 (amended): if name.frag is absent, load_shader fails with a
file-not-found error naming name.frag before any compile call is made;
if name.frag is present and compiles successfully and name.vert is
absent, load_shader fails with a file-not-found error naming name.vert.
(A fragment-stage CompilationError preempts the missing-vertex-file
detection — see the counterexample.) -/
theorem C5_load_shader_file_not_found :
    ∀ (env : GLEnv) (name : String),
      (env.files (name ++ ".frag") = none →
        (load_shader env name).2 =
          Except.error (LoadError.FileNotFound (name ++ ".frag")) ∧
        compileCalls (load_shader env name).1 = 0) ∧
      (∀ fragSource, env.files (name ++ ".frag") = some fragSource →
        env.compileStatus GL_FRAGMENT_SHADER fragSource = GL_TRUE →
        env.files (name ++ ".vert") = none →
        (load_shader env name).2 =
          Except.error (LoadError.FileNotFound (name ++ ".vert"))) := by
  intro env name
  constructor
  · intro h
    simp [load_shader, read_file, h, compileCalls]
  · intro fragSource hf hc hv
    simp [load_shader, read_file, hf, hv, hc, gl.Shader.compile]

theorem C5_load_shader_file_not_found_witness :
    ((load_shader envNoFiles "main").2 =
      Except.error (LoadError.FileNotFound "main.frag") ∧
     compileCalls (load_shader envNoFiles "main").1 = 0) ∧
    (load_shader envVertMissing "main").2 =
      Except.error (LoadError.FileNotFound "main.vert") := by
  refine ⟨(C5_load_shader_file_not_found envNoFiles "main").1 rfl, ?_⟩
  exact (C5_load_shader_file_not_found envVertMissing "main").2 "frag src"
    (by decide) (by decide) (by decide)

/-- C6: gl::Shader::compile fails with a CompilationError exactly when
the driver reports a compile status other than GL_TRUE; the message of the error is the fixed prefix followed by the driver log verbatim; on
success it returns cleanly, the shader ready to attach; one
glCompileShader call is issued either way. -/
theorem C6_compile_error_iff :
    ∀ (sh : gl.Shader) (d : gl.CompileDriver),
      ((sh.compile d).2 = Except.ok () ↔ d.compile_status = GL_TRUE) ∧
      ((sh.compile d).2 =
          Except.error (gl.CompilationError.ofLog d.info_log) ↔
        d.compile_status ≠ GL_TRUE) ∧
      (gl.CompilationError.ofLog d.info_log).message =
        "Failed to compile shader: " ++ d.info_log ∧
      (sh.compile d).1 = [GLCall.CompileShader sh.handle] := by
  intro sh d
  by_cases hc : d.compile_status = GL_TRUE
  · refine ⟨?_, ?_, rfl, rfl⟩ <;> simp [gl.Shader.compile, hc]
  · refine ⟨?_, ?_, rfl, rfl⟩ <;> simp [gl.Shader.compile, hc]

/-- C7: gl::Program::link fails with a LinkError exactly when the driver
reports a link status other than GL_TRUE; the message of the error is the fixed prefix followed by the driver link log verbatim; exactly one
glLinkProgram call is issued — there is no retry path. -/
theorem C7_link_error_iff :
    ∀ (p : gl.Program) (d : gl.LinkDriver),
      ((p.link d).2 = Except.ok () ↔ d.link_status = GL_TRUE) ∧
      ((p.link d).2 = Except.error (gl.LinkError.ofLog d.info_log) ↔
        d.link_status ≠ GL_TRUE) ∧
      (gl.LinkError.ofLog d.info_log).message =
        "Failed to link program: " ++ d.info_log ∧
      (p.link d).1 = [GLCall.LinkProgram p.handle] := by
  intro p d
  by_cases hc : d.link_status = GL_TRUE
  · refine ⟨?_, ?_, rfl, rfl⟩ <;> simp [gl.Program.link, hc]
  · refine ⟨?_, ?_, rfl, rfl⟩ <;> simp [gl.Program.link, hc]

theorem length_flatten_of_const {α : Type} (s : Nat) :
    ∀ (records : List (List α)), (∀ r ∈ records, r.length = s) →
      records.flatten.length = records.length * s
  | [], _ => by simp
  | r :: rest, h => by
    have ih := length_flatten_of_const s rest
      (fun x hx => h x (List.mem_cons_of_mem r hx))
    have hr := h r (List.mem_cons_self r rest)
    simp only [List.flatten_cons, List.length_append, List.length_cons, ih, hr]
    ring

/-- C8: for every contiguous range of N typed records of byte size s,
upload_data replaces the entire buffer contents — independently of
whatever the buffer held before — with exactly the N × s bytes of the
range, tagged with the usage hint. N = 0 and N = 1 are instances of the
universally quantified record list. -/
theorem C8_upload_data_full_replace :
    ∀ (b : gl.BufferStore) (records : List (List Nat)) (s usage : Nat),
      (∀ r ∈ records, r.length = s) →
      (gl.Buffer.upload_data b records s usage).contents = records.flatten ∧
      (gl.Buffer.upload_data b records s usage).contents.length =
        records.length * s ∧
      (gl.Buffer.upload_data b records s usage).usage = some usage ∧
      ∀ b2 : gl.BufferStore,
        gl.Buffer.upload_data b2 records s usage =
          gl.Buffer.upload_data b records s usage := by
  intro b records s usage hrec
  have hlen : records.flatten.length = records.length * s :=
    length_flatten_of_const s records hrec
  have hcont : (gl.Buffer.upload_data b records s usage).contents =
      records.flatten := by
    show records.flatten.take (records.length * s) = records.flatten
    rw [← hlen, List.take_length]
  refine ⟨hcont, ?_, rfl, fun b2 => rfl⟩
  rw [hcont, hlen]

theorem C8_upload_data_full_replace_witness :
    (gl.Buffer.upload_data { contents := [9, 9, 9], usage := none }
      [[1, 2], [3, 4], [5, 6]] 2 GL_STATIC_DRAW).contents = [1, 2, 3, 4, 5, 6] ∧
    (gl.Buffer.upload_data { contents := [9, 9, 9], usage := none }
      [[1, 2], [3, 4], [5, 6]] 2 GL_STATIC_DRAW).contents.length = 6 ∧
    (gl.Buffer.upload_data { contents := [9, 9, 9], usage := none }
      [[1, 2], [3, 4], [5, 6]] 2 GL_STATIC_DRAW).usage = some GL_STATIC_DRAW ∧
    (gl.Buffer.upload_data { contents := [], usage := some GL_DYNAMIC_DRAW }
      [[1, 2], [3, 4], [5, 6]] 2 GL_STATIC_DRAW) =
      (gl.Buffer.upload_data { contents := [9, 9, 9], usage := none }
        [[1, 2], [3, 4], [5, 6]] 2 GL_STATIC_DRAW) := by
  have h := C8_upload_data_full_replace { contents := [9, 9, 9], usage := none }
    [[1, 2], [3, 4], [5, 6]] 2 GL_STATIC_DRAW (by decide)
  exact ⟨h.1.trans (by decide), h.2.1.trans (by decide), h.2.2.1,
    h.2.2.2 { contents := [], usage := some GL_DYNAMIC_DRAW }⟩

/-- C9: every mesh returned by load_mesh carries an 8-bit index buffer
with index_count 3, while vertex_count is 9 — the length of the flat
float array, three times the 3 vertices the geometry actually
describes — so draw_mesh on such a mesh always takes the indexed path:
no glDrawArrays call, exactly one indexed multi-draw. -/
theorem C9_load_mesh_counts :
    ∀ (d0 : GLDriver) (m : Material),
      (load_mesh d0 m).2.1.index_buffer.map IndexBuffer.type =
        some IndexType.u8 ∧
      (load_mesh d0 m).2.1.index_count = 3 ∧
      (load_mesh d0 m).2.1.vertex_count = 9 ∧
      (load_mesh d0 m).2.1.vertex_count = vertex_data.length ∧
      (load_mesh d0 m).2.1.vertex_count = 3 * 3 ∧
      drawArraysCalls (draw_mesh (load_mesh d0 m).2.1) = 0 ∧
      multiDrawCalls (draw_mesh (load_mesh d0 m).2.1) = 1 := by
  intro d0 m
  refine ⟨rfl, rfl, rfl, rfl, rfl, rfl, rfl⟩

end Doodle
